import Mathlib

/-!
Shallow embedding of the Signal Fusion & Position Risk Engine of the
robot_bybit repository.

Sources embedded:
  * `src/unnamed/part_001` — class `RiskManager` (positions, sizing, stops,
    daily-loss accounting).
  * `src/botMonitor.js` — class `TechnicalAnalysis` (indicator guards,
    volatility rank, final signal check of `analyzeSignal`).
  * `src/tradingBot.js` — `TradingBot.detectTrendReversal`.

Modelling conventions: JavaScript numbers are modelled as exact rationals
(`ℚ`); `null`/`undefined` as `Option`; the JS `Map` as an association list
with first-match lookup and in-place replacement on `set`; `Date` reads are
passed in as explicit parameters (`today : String`, `now : ℕ`).  The JS
`x || d` coalescing on numbers (which treats `0` as falsy) is `jsOr`.
External library calls (`RSI.calculate`, `MACD.calculate` from the
`technicalindicators` package, `Math.sqrt`) are parameters of the embedded
functions, since their code is not part of the repository.
-/

namespace Robot

/-- JavaScript `x || d` on a number: `0` is falsy. -/
def jsOr (x d : ℚ) : ℚ := if x = 0 then d else x

/-- JavaScript `x || d` where `x` may be `null`/`undefined`. -/
def jsOrOpt (x : Option ℚ) (d : ℚ) : ℚ :=
  match x with
  | some v => jsOr v d
  | none => d

/-- JavaScript arithmetic/comparison coercion of `null` to `0`. -/
def nullNum (x : Option ℚ) : ℚ := x.getD 0

/-- A position record, as built by `RiskManager.addPosition` and mutated by
stop updates and `closePosition` (src/unnamed/part_001). -/
structure Position where
  symbol : String
  side : String
  size : ℚ
  entryPrice : ℚ
  stopLoss : ℚ
  takeProfit : ℚ
  timestamp : ℕ
  status : String
  isTrailingStop : Bool
  trailingStopDistance : Option ℚ
  highestPrice : Option ℚ
  lowestPrice : Option ℚ
  exitPrice : Option ℚ := none
  exitTime : Option ℕ := none
  closeReason : Option String := none
  pnl : Option ℚ := none
deriving DecidableEq, Repr

/-- The `config.trading` fields the risk manager reads. -/
structure TradingConfig where
  positionSize : ℚ
  stopLoss : ℚ
  riskRewardRatio : ℚ
  maxPositions : ℕ
  minSignalStrength : ℚ
  minConfidence : ℚ
deriving DecidableEq, Repr

/-- The `config.riskManagement` fields the risk manager reads. -/
structure RiskMgmtConfig where
  dailyLossLimit : ℚ
  maxDrawdown : ℚ
deriving DecidableEq, Repr

/-- The configuration object handed to `RiskManager`'s constructor. -/
structure Config where
  trading : TradingConfig
  riskManagement : RiskMgmtConfig
deriving DecidableEq, Repr

/-- JS `Map.get`: the value stored for the key, if any. -/
def mapGet (m : List (String × Position)) (k : String) : Option Position :=
  match m with
  | [] => none
  | (k2, v) :: rest => if k2 = k then some v else mapGet rest k

/-- JS `Map.set`: replace the entry for the key if present, else append. -/
def mapSet (m : List (String × Position)) (k : String) (v : Position) :
    List (String × Position) :=
  match m with
  | [] => [(k, v)]
  | (k2, v2) :: rest =>
    if k2 = k then (k, v) :: rest else (k2, v2) :: mapSet rest k v

/-- JS `Map.delete`: remove the entry for the key. -/
def mapDelete (m : List (String × Position)) (k : String) :
    List (String × Position) :=
  match m with
  | [] => []
  | (k2, v2) :: rest =>
    if k2 = k then rest else (k2, v2) :: mapDelete rest k

/-- The mutable state of one `RiskManager` instance (src/unnamed/part_001,
constructor). -/
structure RiskManager where
  config : Config
  dailyLoss : ℚ
  dailyProfit : ℚ
  totalDrawdown : ℚ
  peakBalance : ℚ
  trades : List Position
  positions : List (String × Position)
  lastResetDate : String
deriving DecidableEq, Repr

namespace RiskManager

/-- `RiskManager.checkDailyLossLimit` (part_001 lines 14-25): reset the daily
counters when the calendar day changed, then compare the accumulated daily
loss with the configured limit.  `today` stands for `new Date().toDateString()`. -/
def checkDailyLossLimit (rm : RiskManager) (today : String) : Bool × RiskManager :=
  let rm1 :=
    if today ≠ rm.lastResetDate then
      { rm with dailyLoss := 0, dailyProfit := 0, lastResetDate := today }
    else rm
  (decide (rm1.dailyLoss < rm1.config.riskManagement.dailyLossLimit), rm1)

/-- Lookup table of `RiskManager.getSymbolDecimals` (part_001 lines 106-128). -/
def decimalsMap : List (String × ℕ) :=
  [("BTCUSDT", 3), ("ETHUSDT", 2), ("ETCUSDT", 2), ("XRPUSDT", 0),
   ("ADAUSDT", 1), ("DOTUSDT", 2), ("LINKUSDT", 2), ("LTCUSDT", 3),
   ("BCHUSDT", 3), ("EOSUSDT", 1), ("TRXUSDT", 0), ("SOLUSDT", 2),
   ("AVAXUSDT", 2), ("FARTCOINUSDT", 0), ("BNBUSDT", 3), ("TRUMPUSDT", 0),
   ("TONUSDT", 2)]

/-- `RiskManager.getSymbolDecimals`: `decimalsMap[symbol] || 2` — the JS `||`
treats a stored `0` as falsy, so symbols mapped to 0 decimals fall back to 2. -/
def getSymbolDecimals (symbol : String) : ℕ :=
  match decimalsMap.lookup symbol with
  | some d => if d = 0 then 2 else d
  | none => 2

/-- Lookup table of `RiskManager.getMinQty` (part_001 lines 131-153). -/
def minQtyMap : List (String × ℚ) :=
  [("BTCUSDT", 0.001), ("ETHUSDT", 0.01), ("ETCUSDT", 0.02), ("XRPUSDT", 5),
   ("ADAUSDT", 0.1), ("DOTUSDT", 0.01), ("LINKUSDT", 0.01), ("LTCUSDT", 0.001),
   ("BCHUSDT", 0.001), ("EOSUSDT", 0.1), ("TRXUSDT", 1), ("SOLUSDT", 0.01),
   ("AVAXUSDT", 0.01), ("FARTCOINUSDT", 1), ("BNBUSDT", 0.001),
   ("TRUMPUSDT", 1), ("TONUSDT", 0.01)]

/-- `RiskManager.getMinQty`: `minQtyMap[symbol] || 0.01`. -/
def getMinQty (symbol : String) : ℚ :=
  match minQtyMap.lookup symbol with
  | some q => if q = 0 then 0.01 else q
  | none => 0.01

/-- Result object of `RiskManager.calculatePositionSize`. -/
structure SizeResult where
  sizeUSD : ℚ
  quantity : ℚ
  price : ℚ
deriving DecidableEq, Repr

/-- `RiskManager.calculatePositionSize` (part_001 lines 49-103).  The current
price is `Option`al; the JS truthiness guard `currentPrice && currentPrice > 0`
is the positivity test on the supplied price. -/
def calculatePositionSize (rm : RiskManager) (balance : ℚ) (symbol : String)
    (signalStrength : ℚ) (confidence : ℚ) (currentPrice : Option ℚ) : SizeResult :=
  let baseSizeUSD := balance * rm.config.trading.positionSize
  let strengthMultiplier := min (signalStrength * 1.5) 1.5
  let confidenceMultiplier := confidence / 100
  let adjustedSizeUSD := baseSizeUSD * strengthMultiplier * confidenceMultiplier
  let minSizeUSD : ℚ := 25
  let maxSizeUSD := balance * 0.7
  let finalSizeUSD := max (min adjustedSizeUSD maxSizeUSD) minSizeUSD
  match currentPrice with
  | some p =>
    if 0 < p then
      let quantity := finalSizeUSD / p
      let decimals := getSymbolDecimals symbol
      let roundedQuantity : ℚ := ((Rat.floor (quantity * (10 : ℚ) ^ decimals) : ℤ) : ℚ) / (10 : ℚ) ^ decimals
      let minQty := getMinQty symbol
      let finalQuantity := max roundedQuantity minQty
      { sizeUSD := finalSizeUSD, quantity := finalQuantity, price := p }
    else
      { sizeUSD := finalSizeUSD, quantity := finalSizeUSD, price := 1 }
  | none => { sizeUSD := finalSizeUSD, quantity := finalSizeUSD, price := 1 }

/-- `RiskManager.calculateStopLoss` (part_001 lines 158-169). -/
def calculateStopLoss (rm : RiskManager) (entryPrice : ℚ) (side : String)
    (riskPercent : Option ℚ) : ℚ :=
  let defaultRisk := jsOr rm.config.trading.stopLoss 0.02
  let risk := jsOrOpt riskPercent defaultRisk
  if side = "Buy" then entryPrice * (1 - risk) else entryPrice * (1 + risk)

/-- `RiskManager.calculateTakeProfit` (part_001 lines 172-185). -/
def calculateTakeProfit (rm : RiskManager) (entryPrice : ℚ) (side : String)
    (stopLoss : ℚ) (ratioArg : Option ℚ) : ℚ :=
  let defaultRatio := jsOr rm.config.trading.riskRewardRatio 2
  let ratio := jsOrOpt ratioArg defaultRatio
  let riskDistance := |entryPrice - stopLoss|
  if side = "Buy" then entryPrice + riskDistance * ratio
  else entryPrice - riskDistance * ratio

/-- `RiskManager.validateStopLoss` (part_001 lines 215-225): a long stop must
sit strictly below entry, anything else strictly above. -/
def validateStopLoss (position : Position) (stopLossPrice : ℚ) : Bool :=
  if position.side = "Buy" then decide (stopLossPrice < position.entryPrice)
  else decide (position.entryPrice < stopLossPrice)

/-- `RiskManager.setStopLoss` (part_001 lines 188-212): returns `false` and
changes nothing when the position is missing or the proposed stop fails
validation; otherwise stores the stop (and trailing bookkeeping) and
returns `true`. -/
def setStopLoss (rm : RiskManager) (symbol : String) (stopLossPrice : ℚ)
    (isTrailing : Bool) : Bool × RiskManager :=
  match mapGet rm.positions symbol with
  | none => (false, rm)
  | some position =>
    if ¬ validateStopLoss position stopLossPrice then (false, rm)
    else
      let p1 := { position with stopLoss := stopLossPrice, isTrailingStop := isTrailing }
      let p2 :=
        if isTrailing then
          { p1 with
            trailingStopDistance := some |position.entryPrice - stopLossPrice|,
            highestPrice := some (if position.side = "Buy" then position.entryPrice else stopLossPrice),
            lowestPrice := some (if position.side = "Sell" then position.entryPrice else stopLossPrice) }
        else p1
      (true, { rm with positions := mapSet rm.positions symbol p2 })

/-- `RiskManager.updateTrailingStop` (part_001 lines 228-264).  The JS code
mutates `highestPrice`/`lowestPrice` before checking whether the candidate
stop improves on the current one, so the extreme is written back even when
the stop itself is not moved.  Comparisons with a `null` extreme follow the
JS coercion of `null` to `0`. -/
def updateTrailingStop (rm : RiskManager) (symbol : String) (currentPrice : ℚ) :
    Bool × RiskManager :=
  match mapGet rm.positions symbol with
  | none => (false, rm)
  | some position =>
    if ¬ position.isTrailingStop then (false, rm)
    else
      let tsd := nullNum position.trailingStopDistance
      if position.side = "Buy" then
        if nullNum position.highestPrice < currentPrice then
          let newStopLoss := currentPrice - tsd
          let p1 := { position with highestPrice := some currentPrice }
          if position.stopLoss < newStopLoss then
            (true, { rm with positions := mapSet rm.positions symbol { p1 with stopLoss := newStopLoss } })
          else
            (false, { rm with positions := mapSet rm.positions symbol p1 })
        else (false, rm)
      else
        if currentPrice < nullNum position.lowestPrice then
          let newStopLoss := currentPrice + tsd
          let p1 := { position with lowestPrice := some currentPrice }
          if newStopLoss < position.stopLoss then
            (true, { rm with positions := mapSet rm.positions symbol { p1 with stopLoss := newStopLoss } })
          else
            (false, { rm with positions := mapSet rm.positions symbol p1 })
        else (false, rm)

/-- `RiskManager.canOpenNewPosition` (part_001 lines 368-370). -/
def canOpenNewPosition (rm : RiskManager) : Bool :=
  decide (rm.positions.length < rm.config.trading.maxPositions)

/-- `RiskManager.addPosition` (part_001 lines 373-405): build the position
(computing stop-loss/take-profit when no custom ones are given — the JS `||`
also treats a custom value of `0` as absent) and store it with `Map.set`,
which replaces any existing entry for the symbol.  `now` stands for
`Date.now()`. -/
def addPosition (rm : RiskManager) (symbol side : String) (size entryPrice : ℚ)
    (customStopLoss customTakeProfit riskPercent : Option ℚ) (now : ℕ) :
    Position × RiskManager :=
  let stopLoss :=
    match customStopLoss with
    | some v => if v = 0 then calculateStopLoss rm entryPrice side riskPercent else v
    | none => calculateStopLoss rm entryPrice side riskPercent
  let takeProfit :=
    match customTakeProfit with
    | some v => if v = 0 then calculateTakeProfit rm entryPrice side stopLoss none else v
    | none => calculateTakeProfit rm entryPrice side stopLoss none
  let position : Position :=
    { symbol := symbol, side := side, size := size, entryPrice := entryPrice,
      stopLoss := stopLoss, takeProfit := takeProfit, timestamp := now,
      status := "open", isTrailingStop := false, trailingStopDistance := none,
      highestPrice := if side = "Buy" then some entryPrice else none,
      lowestPrice := if side = "Sell" then some entryPrice else none }
  (position, { rm with positions := mapSet rm.positions symbol position })

/-- `RiskManager.calculatePnL` (part_001 lines 440-448). -/
def calculatePnL (position : Position) (currentPrice : ℚ) : ℚ :=
  if position.side = "Buy" then (currentPrice - position.entryPrice) * position.size
  else (position.entryPrice - currentPrice) * position.size

/-- `RiskManager.closePosition` (part_001 lines 408-437): `null` (and no state
change) when the symbol has no open position; otherwise mark the record
closed, add the realized PnL to the daily profit or daily loss counter, move
the record to the trade history and drop it from the open map. -/
def closePosition (rm : RiskManager) (symbol : String) (exitPrice : ℚ)
    (reason : String) (now : ℕ) : Option Position × RiskManager :=
  match mapGet rm.positions symbol with
  | none => (none, rm)
  | some position =>
    let pnl := calculatePnL position exitPrice
    let closed :=
      { position with
        exitPrice := some exitPrice, exitTime := some now,
        status := "closed", closeReason := some reason, pnl := some pnl }
    let rm1 :=
      if 0 < pnl then { rm with dailyProfit := rm.dailyProfit + pnl }
      else { rm with dailyLoss := rm.dailyLoss + |pnl| }
    (some closed,
      { rm1 with
        trades := rm1.trades ++ [closed],
        positions := mapDelete rm1.positions symbol })

end RiskManager

/-! Embedding of `TechnicalAnalysis` (src/botMonitor.js). -/

/-- An OHLCV candle (`botMonitor.js`; the `open` field is `openP` since `open`
is a Lean keyword). -/
structure Candle where
  start : ℕ
  openP : ℚ
  high : ℚ
  low : ℚ
  close : ℚ
  volume : ℚ
deriving DecidableEq, Repr

namespace TechnicalAnalysis

/-- The `this.priceHistory` map of `TechnicalAnalysis`, keyed by symbol. -/
structure TAState where
  priceHistory : List (String × List Candle)
deriving DecidableEq, Repr

/-- `TechnicalAnalysis.getPriceHistory` (botMonitor.js lines 221-223):
`this.priceHistory.get(symbol) || []`. -/
def getPriceHistory (st : TAState) (symbol : String) : List Candle :=
  (st.priceHistory.lookup symbol).getD []

/-- `TechnicalAnalysis.calculateRSI` (botMonitor.js lines 227-235).  The
`technicalindicators` library's `RSI.calculate` is not part of the
repository, so it is a parameter `rsiLib` (closes and period in, the RSI
series out); the guard and the last-element extraction are the source's. -/
def calculateRSI (rsiLib : List ℚ → ℕ → List ℚ) (st : TAState) (symbol : String)
    (period : ℕ) : Option ℚ :=
  let history := getPriceHistory st symbol
  if history.length < period + 1 then none
  else
    let closes := history.map (fun c => c.close)
    let rsi := rsiLib closes period
    if 0 < rsi.length then rsi.getLast? else none

/-- One entry of the `MACD.calculate` output series. -/
structure MacdEntry where
  macd : ℚ
  signal : ℚ
  histogram : ℚ
deriving DecidableEq, Repr

/-- `TechnicalAnalysis.calculateMACD` (botMonitor.js lines 238-258), with the
library's `MACD.calculate` as the parameter `macdLib`. -/
def calculateMACD (macdLib : List ℚ → ℕ → ℕ → ℕ → List MacdEntry) (st : TAState)
    (symbol : String) (fastPeriod slowPeriod signalPeriod : ℕ) : Option MacdEntry :=
  let history := getPriceHistory st symbol
  if history.length < slowPeriod + signalPeriod then none
  else
    let closes := history.map (fun c => c.close)
    let series := macdLib closes fastPeriod slowPeriod signalPeriod
    if series.length = 0 then none else series.getLast?

/-- Window start indices of the loop `for (let i = 20; i < history.length;
i += 20)` in `getVolatilityRank`: the positive multiples of 20 below the
history length, in increasing order. -/
def windowStarts (len : ℕ) : List ℕ :=
  (List.range len).filter (fun i => i % 20 = 0 && i ≠ 0)

/-- `history.slice(i - 20, i)`: the 20 candles before index `i`. -/
def sliceWindow (history : List Candle) (i : ℕ) : List Candle :=
  (history.drop (i - 20)).take 20

/-- The inner loop of `getVolatilityRank`: simple returns of consecutive
closes of one window. -/
def simpleReturns (periodData : List Candle) : List ℚ :=
  (periodData.zip periodData.tail).map
    (fun pr => (pr.2.close - pr.1.close) / pr.1.close)

/-- The variance of one window's simple returns, as `getVolatilityRank`
computes it (mean, then average squared deviation). -/
def windowVariance (periodData : List Candle) : ℚ :=
  let returns := simpleReturns periodData
  let avgReturn := returns.sum / (returns.length : ℚ)
  (returns.map (fun r => (r - avgReturn) ^ 2)).sum / (returns.length : ℚ)

/-- One window's realized volatility: `Math.sqrt(variance)`.  `Math.sqrt` is
not rational, so it is the parameter `sqrtFn` of the embedding. -/
def windowVolatility (sqrtFn : ℚ → ℚ) (periodData : List Candle) : ℚ :=
  sqrtFn (windowVariance periodData)

/-- The tail of `getVolatilityRank` (botMonitor.js lines 720-726): sort the
samples ascending (`sort((a, b) => a - b)`, modelled by a stable sort on
`≤`), find the first sample `>= currentVolatility` (`findIndex`, `-1` when
none), divide by the sample count and classify. -/
def rankClassify (volatilities : List ℚ) (currentVolatility : ℚ) : String :=
  let sorted := volatilities.insertionSort (fun a b => a ≤ b)
  let idx : ℤ :=
    match sorted.findIdx? (fun v => decide (currentVolatility ≤ v)) with
    | some k => (k : ℤ)
    | none => -1
  let rank : ℚ := (idx : ℚ) / (volatilities.length : ℚ)
  if rank < 0.2 then "low" else if rank > 0.8 then "high" else "medium"

/-- `TechnicalAnalysis.getVolatilityRank` (botMonitor.js lines 701-726). -/
def getVolatilityRank (sqrtFn : ℚ → ℚ) (st : TAState) (symbol : String)
    (currentVolatility : ℚ) : String :=
  let history := getPriceHistory st symbol
  if history.length < 100 then "medium"
  else
    rankClassify
      ((windowStarts history.length).map
        (fun i => windowVolatility sqrtFn (sliceWindow history i)))
      currentVolatility

/-- The base-signal determination of `TechnicalAnalysis.analyzeSignal`
(botMonitor.js lines 1080-1086): `buy`/`sell` only on a majority with
strength above 0.4 and confidence above 30. -/
def baseSignal (bullishSignals bearishSignals signalStrength finalConfidence : ℚ) :
    String :=
  if bullishSignals > bearishSignals ∧ signalStrength > 0.4 ∧ finalConfidence > 30 then
    "buy"
  else if bearishSignals > bullishSignals ∧ signalStrength > 0.4 ∧ finalConfidence > 30 then
    "sell"
  else "neutral"

/-- The final check of `TechnicalAnalysis.analyzeSignal` (botMonitor.js lines
1088-1101): with a non-neutral long-term trend of confidence above 50, an
agreeing base signal is confirmed and a contradicting one forced to
`neutral`; otherwise the base signal stands. -/
def finalSignal (ltDirection : String) (ltConfidence : ℚ) (signal : String) :
    String :=
  if ltDirection ≠ "neutral" ∧ ltConfidence > 50 then
    if ltDirection = "bullish" ∧ signal = "buy" then "buy"
    else if ltDirection = "bearish" ∧ signal = "sell" then "sell"
    else if ltDirection = "bullish" ∧ signal = "sell" then "neutral"
    else if ltDirection = "bearish" ∧ signal = "buy" then "neutral"
    else signal
  else signal

end TechnicalAnalysis

/-! Embedding of `TradingBot.detectTrendReversal` (src/tradingBot.js,
lines 364-476). -/

namespace TradingBot

/-- The `signal.details` fields `detectTrendReversal` reads. -/
structure SignalDetails where
  rsi_value : Option ℚ
  macd_value : Option TechnicalAnalysis.MacdEntry
deriving DecidableEq, Repr

/-- The fused signal object handed to `detectTrendReversal`. -/
structure FusedSignal where
  signal : String
  strength : ℚ
  confidence : ℚ
  details : Option SignalDetails
deriving DecidableEq, Repr

/-- A trend assessment (direction, strength, confidence) as read by
`detectTrendReversal`. -/
structure Trend where
  direction : String
  strength : ℚ
  confidence : ℚ
deriving DecidableEq, Repr

/-- `config.trading.profitProtection` (tradingBot.js). -/
structure ProfitProtectionConfig where
  enabled : Bool
  minProfitPercent : ℚ
  trendReversalThreshold : ℚ
  criticalReversalThreshold : ℚ
  lossMinimizationPercent : ℚ
  lossMinimizationThreshold : ℚ
deriving DecidableEq, Repr

/-- Which branch of `detectTrendReversal` produced the returned reason
string.  The strings themselves (Russian templates with interpolated
percentages) are abstracted to the branch that builds them. -/
inductive ReversalReason where
  | disabled
  | profitProtection
  | criticalReversal
  | lossMinimization
  | indicatorsOnly
deriving DecidableEq, Repr

/-- Return value of `detectTrendReversal`. -/
structure ReversalResult where
  shouldClose : Bool
  reason : ReversalReason
  strength : ℚ
  pnlPercent : ℚ
deriving DecidableEq, Repr

/-- The six weighted reversal indicators of `detectTrendReversal`
(tradingBot.js lines 371-448), summed into the reversal strength.  JS
truthiness guards (`signal.details && signal.details.rsi_value`) skip a
missing object and an RSI value of `0`. -/
def reversalStrength (position : Robot.Position) (signal : FusedSignal)
    (longTermTrend shortTermTrend : Option Trend) : ℚ :=
  let side := position.side
  let technicalSignal :=
    if side = "Buy" ∧ signal.signal = "sell" then signal.strength * 0.3
    else if side = "Sell" ∧ signal.signal = "buy" then signal.strength * 0.3
    else 0
  let longTermInd :=
    match longTermTrend with
    | some t =>
      if t.direction ≠ "neutral" then
        if side = "Buy" ∧ t.direction = "bearish" ∧ t.confidence > 60 then
          (t.confidence / 100) * 0.35
        else if side = "Sell" ∧ t.direction = "bullish" ∧ t.confidence > 60 then
          (t.confidence / 100) * 0.35
        else 0
      else 0
    | none => 0
  let shortTermInd :=
    match shortTermTrend with
    | some t =>
      if t.direction ≠ "neutral" then
        if side = "Buy" ∧ t.direction = "bearish" then t.strength * 0.2
        else if side = "Sell" ∧ t.direction = "bullish" then t.strength * 0.2
        else 0
      else 0
    | none => 0
  let rsiInd :=
    match signal.details with
    | some d =>
      match d.rsi_value with
      | some r =>
        if r ≠ 0 then
          if side = "Buy" ∧ r > 75 then 0.075
          else if side = "Sell" ∧ r < 25 then 0.075
          else 0
        else 0
      | none => 0
    | none => 0
  let macdInd :=
    match signal.details with
    | some d =>
      match d.macd_value with
      | some m =>
        if side = "Buy" ∧ m.macd < m.signal ∧ m.histogram < 0 then 0.075
        else if side = "Sell" ∧ m.macd > m.signal ∧ m.histogram > 0 then 0.075
        else 0
      | none => 0
    | none => 0
  let confidenceInd :=
    if signal.confidence < 30 then 0 else (signal.confidence / 100) * 0.025
  technicalSignal + longTermInd + shortTermInd + rsiInd + macdInd + confidenceInd

/-- `TradingBot.detectTrendReversal` (tradingBot.js lines 364-476): compute
the weighted reversal strength, then decide — profit protection first, then
critical reversal, then loss minimization, else hold.  A missing or
disabled `profitProtection` configuration never closes. -/
def detectTrendReversal (pp : Option ProfitProtectionConfig)
    (position : Robot.Position) (signal : FusedSignal)
    (longTermTrend shortTermTrend : Option Trend) (pnlPercent : ℚ) :
    ReversalResult :=
  let strength := reversalStrength position signal longTermTrend shortTermTrend
  match pp with
  | none =>
    { shouldClose := false, reason := ReversalReason.disabled,
      strength := strength, pnlPercent := pnlPercent }
  | some cfg =>
    if ¬ cfg.enabled then
      { shouldClose := false, reason := ReversalReason.disabled,
        strength := strength, pnlPercent := pnlPercent }
    else if pnlPercent > cfg.minProfitPercent ∧ strength > cfg.trendReversalThreshold then
      { shouldClose := true, reason := ReversalReason.profitProtection,
        strength := strength, pnlPercent := pnlPercent }
    else if strength > cfg.criticalReversalThreshold then
      { shouldClose := true, reason := ReversalReason.criticalReversal,
        strength := strength, pnlPercent := pnlPercent }
    else if pnlPercent < cfg.lossMinimizationPercent ∧ strength > cfg.lossMinimizationThreshold then
      { shouldClose := true, reason := ReversalReason.lossMinimization,
        strength := strength, pnlPercent := pnlPercent }
    else
      { shouldClose := false, reason := ReversalReason.indicatorsOnly,
        strength := strength, pnlPercent := pnlPercent }

end TradingBot

/-! Library lemmas about the JS-Map model. -/

theorem mapGet_mapSet_self (m : List (String × Position)) (k : String) (v : Position) :
    mapGet (mapSet m k v) k = some v := by
  induction m with
  | nil => simp [mapSet, mapGet]
  | cons hd tl ih =>
    obtain ⟨k2, v2⟩ := hd
    by_cases h : k2 = k
    · simp [mapSet, mapGet, h]
    · simp [mapSet, mapGet, h, ih]

theorem mapGet_mapSet_of_ne (m : List (String × Position)) (k k' : String)
    (v : Position) (h : k' ≠ k) :
    mapGet (mapSet m k v) k' = mapGet m k' := by
  induction m with
  | nil => simp [mapSet, mapGet, Ne.symm h]
  | cons hd tl ih =>
    obtain ⟨k2, v2⟩ := hd
    by_cases h2 : k2 = k
    · subst h2
      simp [mapSet, mapGet, Ne.symm h]
    · simp [mapSet, mapGet, h2, ih]

/-! Concrete fixtures used by the witnesses and counterexamples. -/

/-- A configuration with the spec's example values: 5% position size, 2%
stop-loss risk, $500 daily loss limit. -/
def cfgA : Config :=
  { trading :=
      { positionSize := 0.05, stopLoss := 0.02, riskRewardRatio := 2,
        maxPositions := 3, minSignalStrength := 0.6, minConfidence := 40 },
    riskManagement := { dailyLossLimit := 500, maxDrawdown := 0.1 } }

/-- An open long position: entry 100, stop 98, target 104, size 1. -/
def posA : Position :=
  { symbol := "BTCUSDT", side := "Buy", size := 1, entryPrice := 100,
    stopLoss := 98, takeProfit := 104, timestamp := 1, status := "open",
    isTrailingStop := false, trailingStopDistance := none,
    highestPrice := some 100, lowestPrice := none }

/-- A risk manager holding `posA` open for BTCUSDT with $450 of daily loss
already accumulated. -/
def rmA : RiskManager :=
  { config := cfgA, dailyLoss := 450, dailyProfit := 0, totalDrawdown := 0,
    peakBalance := 0, trades := [], positions := [("BTCUSDT", posA)],
    lastResetDate := "Mon Jan 01 2024" }

/-- A risk manager with no open positions. -/
def rmEmpty : RiskManager :=
  { config := cfgA, dailyLoss := 0, dailyProfit := 0, totalDrawdown := 0,
    peakBalance := 0, trades := [], positions := [],
    lastResetDate := "Mon Jan 01 2024" }

/-! Claim C1 -/

/-- C1 counterexample: `addPosition` on a symbol that already has an open
position does not reject — it returns a fresh open position and the stored
position for the symbol is no longer the old one. -/
theorem c1_addPosition_no_reject_cex :
    mapGet (RiskManager.addPosition rmA "BTCUSDT" "Buy" 1 200 (some 150) (some 250) none 5).2.positions
      "BTCUSDT" ≠ some posA ∧
    (RiskManager.addPosition rmA "BTCUSDT" "Buy" 1 200 (some 150) (some 250) none 5).1.status
      = "open" := by
  constructor
  · decide
  · rfl

/-- C1 (amended): `addPosition` never rejects: it stores the newly built open
position under the symbol, replacing any existing entry (so the map still
holds at most one position per symbol), and leaves every other symbol's
entry unchanged. -/
theorem c1_addPosition_overwrites (rm : RiskManager) (symbol side : String)
    (size entryPrice : ℚ) (customStopLoss customTakeProfit riskPercent : Option ℚ)
    (now : ℕ) :
    mapGet (RiskManager.addPosition rm symbol side size entryPrice customStopLoss
        customTakeProfit riskPercent now).2.positions symbol
      = some (RiskManager.addPosition rm symbol side size entryPrice customStopLoss
        customTakeProfit riskPercent now).1 ∧
    (RiskManager.addPosition rm symbol side size entryPrice customStopLoss
        customTakeProfit riskPercent now).1.status = "open" ∧
    ∀ s2, s2 ≠ symbol →
      mapGet (RiskManager.addPosition rm symbol side size entryPrice customStopLoss
        customTakeProfit riskPercent now).2.positions s2 = mapGet rm.positions s2 := by
  refine ⟨?_, rfl, fun s2 h => ?_⟩
  · exact mapGet_mapSet_self ..
  · exact mapGet_mapSet_of_ne _ _ _ _ h

/-! Claim C10 -/

/-- C10: `closePosition` for a symbol with no open position returns `null`
and leaves the whole risk-manager state unchanged. -/
theorem c10_closePosition_missing_noop (rm : RiskManager) (symbol : String)
    (exitPrice : ℚ) (reason : String) (now : ℕ)
    (h : mapGet rm.positions symbol = none) :
    RiskManager.closePosition rm symbol exitPrice reason now = (none, rm) := by
  unfold RiskManager.closePosition
  rw [h]

/-- C10 witness: the theorem applied to a manager with no positions. -/
theorem c10_closePosition_missing_noop_witness :
    RiskManager.closePosition rmEmpty "BTCUSDT" 40 "manual" 7 = (none, rmEmpty) :=
  c10_closePosition_missing_noop rmEmpty "BTCUSDT" 40 "manual" 7 rfl

/-! Claim C5 -/

/-- C5: for an open position, `setStopLoss` accepts a proposed stop exactly
when it sits on the loss side of entry (strictly below entry for a Buy,
strictly above entry for a Sell); on rejection it returns `false` and the
state — in particular the position's `stopLoss` — is unchanged. -/
theorem c5_stop_loss_validation (rm : RiskManager) (symbol : String) (sl : ℚ)
    (isTrailing : Bool) (pos : Position)
    (hpos : mapGet rm.positions symbol = some pos)
    (hside : pos.side = "Buy" ∨ pos.side = "Sell") :
    ((RiskManager.setStopLoss rm symbol sl isTrailing).1 = true ↔
      (pos.side = "Buy" ∧ sl < pos.entryPrice) ∨
      (pos.side = "Sell" ∧ pos.entryPrice < sl)) ∧
    ((RiskManager.setStopLoss rm symbol sl isTrailing).1 = false →
      (RiskManager.setStopLoss rm symbol sl isTrailing).2 = rm) := by
  unfold RiskManager.setStopLoss
  rw [hpos]
  rcases hside with h | h
  · by_cases hlt : sl < pos.entryPrice
    · simp [RiskManager.validateStopLoss, h, hlt]
    · simp [RiskManager.validateStopLoss, h, hlt]
  · by_cases hlt : pos.entryPrice < sl
    · simp [RiskManager.validateStopLoss, h, hlt]
    · simp [RiskManager.validateStopLoss, h, hlt]

/-- C5 witness: the validation theorem applied to the open long `posA`
(entry 100) and a proposed stop of 98. -/
theorem c5_stop_loss_validation_witness :
    ((RiskManager.setStopLoss rmA "BTCUSDT" 98 false).1 = true ↔
      (posA.side = "Buy" ∧ (98 : ℚ) < posA.entryPrice) ∨
      (posA.side = "Sell" ∧ posA.entryPrice < 98)) ∧
    ((RiskManager.setStopLoss rmA "BTCUSDT" 98 false).1 = false →
      (RiskManager.setStopLoss rmA "BTCUSDT" 98 false).2 = rmA) :=
  c5_stop_loss_validation rmA "BTCUSDT" 98 false posA (by decide) (Or.inl rfl)

/-! Claim C4 -/

/-- C4: `updateTrailingStop` never moves the stop against the position's
favorable direction: the stop of a Buy position never decreases and the
stop of a Sell position never increases. -/
theorem c4_trailing_stop_monotone (rm : RiskManager) (symbol : String)
    (currentPrice : ℚ) (pos : Position)
    (hpos : mapGet rm.positions symbol = some pos)
    (htr : pos.isTrailingStop = true) :
    ∀ pos', mapGet (RiskManager.updateTrailingStop rm symbol currentPrice).2.positions
        symbol = some pos' →
      (pos.side = "Buy" → pos.stopLoss ≤ pos'.stopLoss) ∧
      (pos.side = "Sell" → pos'.stopLoss ≤ pos.stopLoss) := by
  intro pos' hpos'
  by_cases hside : pos.side = "Buy"
  · by_cases h1 : nullNum pos.highestPrice < currentPrice
    · by_cases h2 : pos.stopLoss < currentPrice - nullNum pos.trailingStopDistance
      · simp only [RiskManager.updateTrailingStop, hpos, htr, hside, h1, h2, if_true,
          not_true, if_false, if_pos, if_neg, not_false_iff, ite_true, ite_false,
          mapGet_mapSet_self, Option.some.injEq] at hpos'
        subst hpos'
        refine ⟨fun _ => ?_, fun hsell => ?_⟩
        · exact le_of_lt h2
        · rw [hside] at hsell
          exact absurd hsell (by decide)
      · simp only [RiskManager.updateTrailingStop, hpos, htr, hside, h1, h2, if_true,
          not_true, if_false, not_false_iff, ite_true, ite_false,
          mapGet_mapSet_self, Option.some.injEq] at hpos'
        subst hpos'
        exact ⟨fun _ => le_refl _, fun _ => le_refl _⟩
    · simp only [RiskManager.updateTrailingStop, hpos, htr, hside, h1, not_true,
        ite_true, ite_false] at hpos'
      obtain rfl := Option.some.inj hpos'
      exact ⟨fun _ => le_refl _, fun _ => le_refl _⟩
  · by_cases h1 : currentPrice < nullNum pos.lowestPrice
    · by_cases h2 : currentPrice + nullNum pos.trailingStopDistance < pos.stopLoss
      · simp only [RiskManager.updateTrailingStop, hpos, htr, hside, h1, h2, if_true,
          not_true, if_false, not_false_iff, ite_true, ite_false,
          mapGet_mapSet_self, Option.some.injEq] at hpos'
        subst hpos'
        refine ⟨fun hbuy => absurd hbuy hside, fun _ => le_of_lt h2⟩
      · simp only [RiskManager.updateTrailingStop, hpos, htr, hside, h1, h2, if_true,
          not_true, if_false, not_false_iff, ite_true, ite_false,
          mapGet_mapSet_self, Option.some.injEq] at hpos'
        subst hpos'
        exact ⟨fun _ => le_refl _, fun _ => le_refl _⟩
    · simp only [RiskManager.updateTrailingStop, hpos, htr, hside, h1, not_true,
        ite_true, ite_false] at hpos'
      obtain rfl := Option.some.inj hpos'
      exact ⟨fun _ => le_refl _, fun _ => le_refl _⟩

/-- A trailing-stop long position for ETHUSDT: entry 100, stop 98, trailing
distance 2, highest seen 100. -/
def posTrail : Position :=
  { symbol := "ETHUSDT", side := "Buy", size := 1, entryPrice := 100,
    stopLoss := 98, takeProfit := 104, timestamp := 1, status := "open",
    isTrailingStop := true, trailingStopDistance := some 2,
    highestPrice := some 100, lowestPrice := none }

/-- A risk manager holding `posTrail` open. -/
def rmTrail : RiskManager :=
  { config := cfgA, dailyLoss := 0, dailyProfit := 0, totalDrawdown := 0,
    peakBalance := 0, trades := [], positions := [("ETHUSDT", posTrail)],
    lastResetDate := "Mon Jan 01 2024" }

/-- `posTrail` after `updateTrailingStop` at price 110: extreme raised to 110,
stop raised to 108. -/
def posTrailAfter : Position :=
  { posTrail with highestPrice := some 110, stopLoss := 108 }

/-- C4 witness: the monotonicity theorem applied to `rmTrail` at price 110,
where the stop moves from 98 up to 108. -/
theorem c4_trailing_stop_monotone_witness :
    posTrail.stopLoss ≤ posTrailAfter.stopLoss :=
  (c4_trailing_stop_monotone rmTrail "ETHUSDT" 110 posTrail (by decide) rfl
      posTrailAfter
      (by norm_num [RiskManager.updateTrailingStop, rmTrail, posTrail,
        posTrailAfter, mapGet, mapSet, nullNum])).1 rfl

/-! Claim C2 -/

/-- C2 counterexample: with a $10 balance (so `0.7×balance = 7`), the $25
floor wins and `sizeUSD = 25` falls outside the claimed interval
`[25, 0.7×balance]`. -/
theorem c2_small_balance_cex :
    (RiskManager.calculatePositionSize rmEmpty 10 "BTCUSDT" 1 50 (some 100)).sizeUSD = 25 ∧
    ¬ ((RiskManager.calculatePositionSize rmEmpty 10 "BTCUSDT" 1 50 (some 100)).sizeUSD
        ≤ 10 * 0.7) := by
  constructor <;>
    norm_num [RiskManager.calculatePositionSize, RiskManager.getSymbolDecimals,
      RiskManager.getMinQty, rmEmpty, cfgA, min_def, max_def]

/-- C2 (amended): for every positive balance, confidence in `[0,100]` and
positive current price, `sizeUSD` lies in `[25, max(25, 0.7×balance)]` — so
inside the claimed `[25, 0.7×balance]` exactly when `0.7×balance ≥ 25` —
and the returned quantity is never below the instrument's minimum order
quantity. -/
theorem c2_position_size_bounds (rm : RiskManager) (balance : ℚ) (symbol : String)
    (signalStrength confidence p : ℚ)
    (hb : 0 < balance) (hc0 : 0 ≤ confidence) (hc1 : confidence ≤ 100) (hp : 0 < p) :
    25 ≤ (RiskManager.calculatePositionSize rm balance symbol signalStrength
        confidence (some p)).sizeUSD ∧
    (RiskManager.calculatePositionSize rm balance symbol signalStrength
        confidence (some p)).sizeUSD ≤ max 25 (balance * 0.7) ∧
    RiskManager.getMinQty symbol ≤
      (RiskManager.calculatePositionSize rm balance symbol signalStrength
        confidence (some p)).quantity := by
  simp only [RiskManager.calculatePositionSize, hp, if_true]
  refine ⟨le_max_right _ _, ?_, le_max_right _ _⟩
  exact max_le (le_trans (min_le_right _ _) (le_max_right _ _)) (le_max_left _ _)

/-- C2 witness: the bounds theorem at the spec's example (balance $10,000,
strength 0.9, confidence 80, price 100). -/
theorem c2_position_size_bounds_witness :
    25 ≤ (RiskManager.calculatePositionSize rmEmpty 10000 "BTCUSDT" 0.9 80
        (some 100)).sizeUSD ∧
    (RiskManager.calculatePositionSize rmEmpty 10000 "BTCUSDT" 0.9 80
        (some 100)).sizeUSD ≤ max 25 (10000 * 0.7) ∧
    RiskManager.getMinQty "BTCUSDT" ≤
      (RiskManager.calculatePositionSize rmEmpty 10000 "BTCUSDT" 0.9 80
        (some 100)).quantity :=
  c2_position_size_bounds rmEmpty 10000 "BTCUSDT" 0.9 80 100 (by norm_num)
    (by norm_num) (by norm_num) (by norm_num)

/-! Claim C7 -/

/-- C7: with a $500 daily loss limit and $450 accumulated, the limit check
passes; closing the open long (entry 100, size 1) at 40 books a −$60 PnL,
raising the daily loss to $510; the check then fails, and keeps failing on
repeated same-day calls, until a new calendar day resets the accumulator to
0 and the check passes again. -/
theorem c7_daily_loss_limit_scenario :
    (RiskManager.checkDailyLossLimit rmA "Mon Jan 01 2024").1 = true ∧
    (RiskManager.closePosition rmA "BTCUSDT" 40 "stop_loss" 99).2.dailyLoss = 510 ∧
    (RiskManager.checkDailyLossLimit
        (RiskManager.closePosition rmA "BTCUSDT" 40 "stop_loss" 99).2
        "Mon Jan 01 2024").1 = false ∧
    (RiskManager.checkDailyLossLimit
        (RiskManager.checkDailyLossLimit
          (RiskManager.closePosition rmA "BTCUSDT" 40 "stop_loss" 99).2
          "Mon Jan 01 2024").2
        "Mon Jan 01 2024").1 = false ∧
    (RiskManager.checkDailyLossLimit
        (RiskManager.closePosition rmA "BTCUSDT" 40 "stop_loss" 99).2
        "Tue Jan 02 2024").1 = true ∧
    (RiskManager.checkDailyLossLimit
        (RiskManager.closePosition rmA "BTCUSDT" 40 "stop_loss" 99).2
        "Tue Jan 02 2024").2.dailyLoss = 0 := by
  refine ⟨?_, ?_, ?_, ?_, ?_, ?_⟩ <;>
    norm_num [RiskManager.checkDailyLossLimit, RiskManager.closePosition,
      RiskManager.calculatePnL, rmA, posA, cfgA, mapGet, mapDelete,
      (by decide : ("Tue Jan 02 2024" : String) ≠ "Mon Jan 01 2024")]

/-! Claim C8 -/

/-- C8: with a stored history shorter than the indicator's minimum
(`period + 1` candles for RSI, `slowPeriod + signalPeriod` for MACD), the
indicator returns `none` — whatever the underlying library computes. -/
theorem c8_indicators_short_history :
    (∀ (rsiLib : List ℚ → ℕ → List ℚ) (st : TechnicalAnalysis.TAState)
        (symbol : String) (period : ℕ),
      (TechnicalAnalysis.getPriceHistory st symbol).length < period + 1 →
      TechnicalAnalysis.calculateRSI rsiLib st symbol period = none) ∧
    (∀ (macdLib : List ℚ → ℕ → ℕ → ℕ → List TechnicalAnalysis.MacdEntry)
        (st : TechnicalAnalysis.TAState) (symbol : String)
        (fastPeriod slowPeriod signalPeriod : ℕ),
      (TechnicalAnalysis.getPriceHistory st symbol).length < slowPeriod + signalPeriod →
      TechnicalAnalysis.calculateMACD macdLib st symbol fastPeriod slowPeriod
        signalPeriod = none) := by
  constructor
  · intro rsiLib st symbol period h
    simp only [TechnicalAnalysis.calculateRSI, h, if_true]
  · intro macdLib st symbol fastP slowP sigP h
    simp only [TechnicalAnalysis.calculateMACD, h, if_true]

/-! Claim C3 -/

/-- C3: when the long-term trend is non-neutral with confidence above 50,
`analyzeSignal`'s final check forces a contradicting base signal to
`neutral` (bullish trend with a `sell` base, bearish trend with a `buy`
base) and returns the base signal itself when it agrees with the trend. -/
theorem c3_long_term_veto (ltDirection : String)
    (ltConfidence bullishSignals bearishSignals signalStrength finalConfidence : ℚ)
    (hdir : ltDirection = "bullish" ∨ ltDirection = "bearish")
    (hconf : ltConfidence > 50) :
    (((ltDirection = "bullish" ∧
        TechnicalAnalysis.baseSignal bullishSignals bearishSignals signalStrength
          finalConfidence = "sell") ∨
      (ltDirection = "bearish" ∧
        TechnicalAnalysis.baseSignal bullishSignals bearishSignals signalStrength
          finalConfidence = "buy")) →
      TechnicalAnalysis.finalSignal ltDirection ltConfidence
        (TechnicalAnalysis.baseSignal bullishSignals bearishSignals signalStrength
          finalConfidence) = "neutral") ∧
    (((ltDirection = "bullish" ∧
        TechnicalAnalysis.baseSignal bullishSignals bearishSignals signalStrength
          finalConfidence = "buy") ∨
      (ltDirection = "bearish" ∧
        TechnicalAnalysis.baseSignal bullishSignals bearishSignals signalStrength
          finalConfidence = "sell")) →
      TechnicalAnalysis.finalSignal ltDirection ltConfidence
        (TechnicalAnalysis.baseSignal bullishSignals bearishSignals signalStrength
          finalConfidence) =
        TechnicalAnalysis.baseSignal bullishSignals bearishSignals signalStrength
          finalConfidence) := by
  constructor
  · rintro (⟨hd, hsig⟩ | ⟨hd, hsig⟩) <;> subst hd <;>
      simp [TechnicalAnalysis.finalSignal, hsig, hconf]
  · rintro (⟨hd, hsig⟩ | ⟨hd, hsig⟩) <;> subst hd <;>
      simp [TechnicalAnalysis.finalSignal, hsig, hconf]

/-- C3 witness: a bullish long-term trend with confidence 60 vetoes a `sell`
base signal (accumulators 0 bullish vs 1 bearish, strength 1, confidence 50)
into `neutral`. -/
theorem c3_long_term_veto_witness :
    TechnicalAnalysis.finalSignal "bullish" 60 (TechnicalAnalysis.baseSignal 0 1 1 50)
      = "neutral" :=
  (c3_long_term_veto "bullish" 60 0 1 1 50 (Or.inl rfl) (by norm_num)).1
    (Or.inl ⟨rfl, by norm_num [TechnicalAnalysis.baseSignal]⟩)

/-! Claim C6 -/

/-- C6: with profit protection enabled, whenever the unrealized PnL percent
exceeds the configured profit threshold and the computed reversal strength
exceeds the configured trend-reversal threshold, `detectTrendReversal`
returns a close decision whose reason is the profit-protection branch. -/
theorem c6_profit_protection_close (cfg : TradingBot.ProfitProtectionConfig)
    (position : Position) (signal : TradingBot.FusedSignal)
    (longTermTrend shortTermTrend : Option TradingBot.Trend) (pnlPercent : ℚ)
    (hen : cfg.enabled = true)
    (hpnl : pnlPercent > cfg.minProfitPercent)
    (hstr : TradingBot.reversalStrength position signal longTermTrend shortTermTrend
      > cfg.trendReversalThreshold) :
    (TradingBot.detectTrendReversal (some cfg) position signal longTermTrend
      shortTermTrend pnlPercent).shouldClose = true ∧
    (TradingBot.detectTrendReversal (some cfg) position signal longTermTrend
      shortTermTrend pnlPercent).reason = TradingBot.ReversalReason.profitProtection := by
  simp [TradingBot.detectTrendReversal, hen, hpnl, hstr]

/-- Profit-protection configuration of the spec's example: +2% profit
threshold, 0.4 reversal threshold. -/
def ppW : TradingBot.ProfitProtectionConfig :=
  { enabled := true, minProfitPercent := 2, trendReversalThreshold := 0.4,
    criticalReversalThreshold := 0.7, lossMinimizationPercent := -1.5,
    lossMinimizationThreshold := 0.45 }

/-- An open short position. -/
def posSell : Position :=
  { symbol := "SOLUSDT", side := "Sell", size := 1, entryPrice := 100,
    stopLoss := 102, takeProfit := 96, timestamp := 1, status := "open",
    isTrailingStop := false, trailingStopDistance := none,
    highestPrice := none, lowestPrice := some 100 }

/-- A neutral fused signal with no indicator detail. -/
def sigNeutral : TradingBot.FusedSignal :=
  { signal := "neutral", strength := 0, confidence := 0, details := none }

/-- A bullish long-term trend at confidence 100 (contributes 0.35 against a
short). -/
def ltBull : TradingBot.Trend :=
  { direction := "bullish", strength := 1, confidence := 100 }

/-- A bullish short-term trend of strength 1 (contributes 0.2 against a
short). -/
def stBull : TradingBot.Trend :=
  { direction := "bullish", strength := 1, confidence := 50 }

/-- C6 witness: the spec's example — a short whose reversal contributions sum
to 0.55 with PnL +3% against thresholds +2% and 0.4 closes with the
profit-protection reason. -/
theorem c6_profit_protection_close_witness :
    TradingBot.reversalStrength posSell sigNeutral (some ltBull) (some stBull) = 0.55 ∧
    ((TradingBot.detectTrendReversal (some ppW) posSell sigNeutral (some ltBull)
        (some stBull) 3).shouldClose = true ∧
      (TradingBot.detectTrendReversal (some ppW) posSell sigNeutral (some ltBull)
        (some stBull) 3).reason = TradingBot.ReversalReason.profitProtection) :=
  ⟨by norm_num [TradingBot.reversalStrength, posSell, sigNeutral, ltBull, stBull,
      (by decide : ("bullish" : String) ≠ "neutral")],
    c6_profit_protection_close ppW posSell sigNeutral (some ltBull) (some stBull) 3
      rfl (by norm_num [ppW])
      (by norm_num [TradingBot.reversalStrength, posSell, sigNeutral, ltBull,
        stBull, ppW, (by decide : ("bullish" : String) ≠ "neutral")])⟩

/-! Claim C9 -/

/-- Simple returns of a constant-price window are all zero. -/
theorem simpleReturns_replicate (n : ℕ) (c : Candle) :
    TechnicalAnalysis.simpleReturns (List.replicate n c) = List.replicate (n - 1) (0 : ℚ) := by
  unfold TechnicalAnalysis.simpleReturns
  rw [List.tail_replicate, List.zip_replicate, List.map_replicate,
    min_eq_right (Nat.sub_le n 1)]
  simp

/-- The realized variance of a constant-price window is zero. -/
theorem windowVariance_replicate (n : ℕ) (c : Candle) :
    TechnicalAnalysis.windowVariance (List.replicate n c) = 0 := by
  unfold TechnicalAnalysis.windowVariance
  rw [simpleReturns_replicate]
  simp

/-- A candle whose close is 100. -/
def candleFlat : Candle := { start := 0, openP := 100, high := 100, low := 100, close := 100, volume := 1 }

/-- A 100-candle history of constant price (every 20-candle window has
realized volatility 0). -/
def hist100 : List Candle := List.replicate 100 candleFlat

/-- A `TechnicalAnalysis` state holding `hist100` for BTCUSDT. -/
def st9 : TechnicalAnalysis.TAState := { priceHistory := [("BTCUSDT", hist100)] }

/-- C9 (code bug): with 100 stored candles whose four window volatilities are
all 0 and a current volatility of 1 — strictly above every sample, hence in
the top 20th percentile — `getVolatilityRank` returns "low", not "high":
`findIndex` yields −1 when no sample is ≥ the current volatility, and
−1/4 < 0.2 lands in the "low" branch. -/
theorem c9_volatility_rank_low_on_extreme (sqrtFn : ℚ → ℚ) (h0 : sqrtFn 0 = 0) :
    TechnicalAnalysis.getVolatilityRank sqrtFn st9 "BTCUSDT" 1 = "low" := by
  have hws : TechnicalAnalysis.windowStarts
      (TechnicalAnalysis.getPriceHistory st9 "BTCUSDT").length = [20, 40, 60, 80] := by
    decide
  have hv : ∀ i : ℕ, TechnicalAnalysis.windowVariance
      (TechnicalAnalysis.sliceWindow (TechnicalAnalysis.getPriceHistory st9 "BTCUSDT") i) = 0 := by
    intro i
    have hs : TechnicalAnalysis.sliceWindow (TechnicalAnalysis.getPriceHistory st9 "BTCUSDT") i
        = List.replicate (min 20 (100 - (i - 20))) candleFlat := by
      show TechnicalAnalysis.sliceWindow hist100 i = _
      unfold TechnicalAnalysis.sliceWindow hist100
      rw [List.drop_replicate, List.take_replicate]
    rw [hs]
    exact windowVariance_replicate ..
  have hmap : (TechnicalAnalysis.windowStarts
        (TechnicalAnalysis.getPriceHistory st9 "BTCUSDT").length).map
      (fun i => TechnicalAnalysis.windowVolatility sqrtFn
        (TechnicalAnalysis.sliceWindow (TechnicalAnalysis.getPriceHistory st9 "BTCUSDT") i))
      = [0, 0, 0, 0] := by
    rw [hws]
    simp [TechnicalAnalysis.windowVolatility, hv, h0]
  have hlen : ¬ ((TechnicalAnalysis.getPriceHistory st9 "BTCUSDT").length < 100) := by
    decide
  simp only [TechnicalAnalysis.getVolatilityRank, hlen, ite_false, if_false]
  rw [hmap]
  norm_num [TechnicalAnalysis.rankClassify, List.insertionSort, List.orderedInsert]

/-- C9 witness: the evaluation at the concrete failing input, with the one
property of `Math.sqrt` the run uses (`sqrt 0 = 0`) discharged at the zero
function. -/
theorem c9_volatility_rank_low_witness :
    TechnicalAnalysis.getVolatilityRank (fun _ => 0) st9 "BTCUSDT" 1 = "low" :=
  c9_volatility_rank_low_on_extreme (fun _ => 0) rfl

end Robot
